import Mathlib

/-!
Shallow embedding of the layout-aware type conversion and lowering core of the
Triton GPU compiler middle-end, together with proofs about it.

The embedding follows the C++ sources:
  - lib/Conversion/TritonGPUToLLVM/TypeConverter.cpp
      (TritonGPUToLLVMTypeConverter: scalar conversions, getElementTypeForStruct,
       convertTritonTensorType, packLLElements, unpackLLElements)
  - lib/Dialect/Triton/IR/Ops.cpp and the TritonGPUConversion translation unit
      (TransOp/ReduceOp/ExpandDimsOp::inferReturnTypes, TritonGPUTypeConverter,
       TritonGPUConversionTarget)
  - include/triton/Dialect/TritonGPU/IR/Dialect.h (layout-algebra signatures)

MLIR machine integers that matter here (bit widths, ranks, address spaces) are
modelled as Nat; tensor extents as Int (MLIR int64_t shapes); fallible
conversions return Option.
-/

/-- Hardware generation tag of an MMA (matrix-multiply-accumulate) encoding:
`MmaEncodingAttr::isVolta()` / `isAmpere()` are mutually exclusive. -/
inductive MmaVersion where
  | volta
  | ampere
deriving DecidableEq, Repr

/-- The closed set of TritonGPU layout encodings (`BlockedEncodingAttr`,
`SharedEncodingAttr`, `SliceEncodingAttr`, `MmaEncodingAttr`,
`DotOperandEncodingAttr`).  The fields kept are exactly the ones the code under
verification consumes: the shared encoding's swizzling parameters never reach
the type converter, so the variant carries no fields. -/
inductive Encoding where
  | blocked (sizePerThread : List Nat) (threadsPerWarp : List Nat)
      (warpsPerCTA : List Nat) (order : List Nat)
  | shared
  | sliced (dim : Nat) (parent : Encoding)
  | mma (version : MmaVersion)
  | dotOperand (opIdx : Nat) (parent : Encoding)
deriving DecidableEq, Repr

/-- MLIR types, restricted to the ones the conversion pipeline manipulates:
builtin integers/floats (including the two float8 formats and bfloat16),
Triton pointers, LLVM pointers, fixed vectors, literal LLVM structs and ranked
tensors with an optional layout encoding. -/
inductive MLIRType where
  | int (width : Nat)
  | index
  | f16
  | bf16
  | f32
  | f64
  | f8E4M3FN
  | f8E5M2
  | tritonPtr (pointee : MLIRType) (addressSpace : Nat)
  | llvmPtr (pointee : MLIRType) (addressSpace : Nat)
  | vec (width : Nat) (elem : MLIRType)
  | llvmStruct (body : List MLIRType)
  | rankedTensor (shape : List Int) (elem : MLIRType) (encoding : Option Encoding)

namespace MLIRType

/-- `Type::isa<IntegerType>()`. -/
def isIntegerType : MLIRType → Bool
  | .int _ => true
  | _ => false

/-- `Type::getIntOrFloatBitWidth()`; only ever applied to integer or float
types in the source (it asserts otherwise), so non-scalar cases return 0. -/
def getIntOrFloatBitWidth : MLIRType → Nat
  | .int w => w
  | .f16 => 16
  | .bf16 => 16
  | .f32 => 32
  | .f64 => 64
  | .f8E4M3FN => 8
  | .f8E5M2 => 8
  | _ => 0

/-- `Type::isIntOrIndexOrFloat()`. -/
def isIntOrIndexOrFloat : MLIRType → Bool
  | .int _ => true
  | .index => true
  | .f16 => true
  | .bf16 => true
  | .f32 => true
  | .f64 => true
  | .f8E4M3FN => true
  | .f8E5M2 => true
  | _ => false

end MLIRType

mutual

/-- Structural type equality; MLIR types are interned, so the pointer
comparison `Type::operator!=` in the source is structural equality. -/
def typeEq : MLIRType → MLIRType → Bool
  | .int a, .int b => a == b
  | .index, .index => true
  | .f16, .f16 => true
  | .bf16, .bf16 => true
  | .f32, .f32 => true
  | .f64, .f64 => true
  | .f8E4M3FN, .f8E4M3FN => true
  | .f8E5M2, .f8E5M2 => true
  | .tritonPtr p a, .tritonPtr q b => typeEq p q && a == b
  | .llvmPtr p a, .llvmPtr q b => typeEq p q && a == b
  | .vec w e, .vec v f => w == v && typeEq e f
  | .llvmStruct xs, .llvmStruct ys => typeListEq xs ys
  | .rankedTensor s e n, .rankedTensor t f m => s == t && typeEq e f && n == m
  | _, _ => false

/-- Pointwise `typeEq` on lists of types. -/
def typeListEq : List MLIRType → List MLIRType → Bool
  | [], [] => true
  | x :: xs, y :: ys => typeEq x y && typeListEq xs ys
  | _, _ => false

end

mutual

theorem typeEq_refl : (t : MLIRType) → typeEq t t = true
  | .int _ => by simp [typeEq]
  | .index => rfl
  | .f16 => rfl
  | .bf16 => rfl
  | .f32 => rfl
  | .f64 => rfl
  | .f8E4M3FN => rfl
  | .f8E5M2 => rfl
  | .tritonPtr p _ => by simp [typeEq, typeEq_refl p]
  | .llvmPtr p _ => by simp [typeEq, typeEq_refl p]
  | .vec _ e => by simp [typeEq, typeEq_refl e]
  | .llvmStruct xs => by simp [typeEq, typeListEq_refl xs]
  | .rankedTensor _ e _ => by simp [typeEq, typeEq_refl e]

theorem typeListEq_refl : (ts : List MLIRType) → typeListEq ts ts = true
  | [] => rfl
  | t :: ts => by simp [typeListEq, typeEq_refl t, typeListEq_refl ts]

end

/-- Insert an element at position `n` (`std::vector::insert(begin() + n, a)`). -/
def insertAtIdx {α : Type} (n : Nat) (a : α) : List α → List α
  | l =>
    match n, l with
    | 0, l => a :: l
    | _ + 1, [] => [a]
    | n + 1, x :: xs => x :: insertAtIdx n a xs

/-- Per-dimension element count of a blocked layout: size-per-thread times the
number of repetitions of the CTA tile over the extent, dimensions whose tile
over-covers the extent clamped to one repetition; the per-dimension counts are
multiplied together. -/
def blockedElems : List Nat → List Nat → List Nat → List Int → Nat
  | spt :: spts, tpw :: tpws, wpc :: wpcs, d :: ds =>
    (Nat.max 1 ((d.toNat + spt * tpw * wpc - 1) / (spt * tpw * wpc)) * spt) *
      blockedElems spts tpws wpcs ds
  | _, _, _, _ => 1

/-- Modelled from the spec: `getElemsPerThread` is declared in the sources
(include/triton/Dialect/TritonGPU/IR/Dialect.h) but implemented outside them.
Spec section 4.1: for Blocked, the product over dimensions of size-per-thread
times tile repetitions, with over-covering dimensions clamped to one
repetition; Sliced delegates to its parent with the sliced dimension
reinserted (extent 1); DotOperand and MMA have fixed small per-generation
counts (the spec fixes no constant, and no claim below depends on the value;
a representative constant 4 is used); Shared never reaches this query, since
the converter returns before consulting it. -/
def getElemsPerThreadEnc : Encoding → List Int → Nat
  | .blocked spt tpw wpc _, shape => blockedElems spt tpw wpc shape
  | .sliced dim parent, shape => getElemsPerThreadEnc parent (insertAtIdx dim 1 shape)
  | .shared, _ => 1
  | .mma _, _ => 4
  | .dotOperand _ _, _ => 4

/-- Elements-per-thread of a tensor type, dispatching on its encoding; a
tensor with no encoding does not occur by the time this converter runs (the
TritonGPU conversion has already assigned a layout), so it counts as one
element per thread. -/
def getElemsPerThread (enc : Option Encoding) (shape : List Int) : Nat :=
  match enc with
  | some layout => getElemsPerThreadEnc layout shape
  | none => 1

/-- The element-override rule of
`TritonGPUToLLVMTypeConverter::getElementTypeForStruct`, applied to the
already-converted element type `elemTy` (the C++ function first runs
`convertType` on the tensor element type; that composition is
`getElementTypeForStruct` below).  For a DotOperand layout over an
Ampere-class MMA parent: sub-32-bit integers widen to i32, otherwise the
bitwidth is looked up in the table {32 -> 1-wide, 16 -> 2-wide, 8 -> 4-wide}
of vector types (`DenseMap::lookup` yields a null `Type` - here `none` - for
any other width).  Over a Volta-class parent the element is always packed
2-wide.  Any other layout (or a DotOperand whose parent is not an MMA
encoding) leaves the element type unchanged. -/
def elementTypeForStructOfConverted (elemTy : MLIRType) (layout : Option Encoding) :
    Option MLIRType :=
  match layout with
  | some (.dotOperand _ parent) =>
    match parent with
    | .mma .ampere =>
      if elemTy.isIntegerType && elemTy.getIntOrFloatBitWidth < 32 then
        some (.int 32)
      else
        match elemTy.getIntOrFloatBitWidth with
        | 32 => some (.vec 1 elemTy)
        | 16 => some (.vec 2 elemTy)
        | 8 => some (.vec 4 elemTy)
        | _ => none
    | .mma .volta => some (.vec 2 elemTy)
    | _ => some elemTy
  | _ => some elemTy

/-- `TritonGPUToLLVMTypeConverter::convertType`: the LLVM type converter with
the registered Triton conversions.  Float8 formats are stored as i8 and
bfloat16 as i16 (bit-preserving reinterpretations); Triton pointers convert
recursively on their pointee, preserving the address space; ranked tensor
types become literal LLVM structs: for a Shared encoding, a pointer into
address space 3 followed by `2 * rank` i32 fields (offsets then strides), and
for every other encoding `getElemsPerThread` copies of the resolved element
type.  All remaining (LLVM-compatible) types convert to themselves. -/
def convertType : MLIRType → Option MLIRType
  | .f8E4M3FN => some (.int 8)
  | .f8E5M2 => some (.int 8)
  | .bf16 => some (.int 16)
  | .tritonPtr pointee addressSpace =>
    (convertType pointee).map (fun p => .llvmPtr p addressSpace)
  | .rankedTensor shape elem enc =>
    match (convertType elem).bind (fun e => elementTypeForStructOfConverted e enc) with
    | none => none
    | some eltType =>
      match enc with
      | some .shared =>
        some (.llvmStruct (.llvmPtr eltType 3 :: List.replicate (2 * shape.length) (.int 32)))
      | _ => some (.llvmStruct (List.replicate (getElemsPerThread enc shape) eltType))
  | t => some t

/-- `TritonGPUToLLVMTypeConverter::getElementTypeForStruct`: convert the
tensor element type, then apply the DotOperand/MMA element-override rule. -/
def getElementTypeForStruct (elem : MLIRType) (layout : Option Encoding) :
    Option MLIRType :=
  (convertType elem).bind (fun e => elementTypeForStructOfConverted e layout)

/-- `TritonGPUToLLVMTypeConverter::convertTritonTensorType`, as registered in
the converter: the tensor case of `convertType`. -/
def convertTritonTensorType (shape : List Int) (elem : MLIRType)
    (enc : Option Encoding) : Option MLIRType :=
  convertType (.rankedTensor shape elem enc)

/-- Per-lane IR values, as far as the packing protocol observes them: an
opaque SSA scalar of some type, an `llvm.mlir.undef` of some type, or a
struct aggregate with known field values (the denotation of an
insert_val-built struct). -/
inductive LLVMValue where
  | scalar (ty : MLIRType) (id : Nat)
  | undef (ty : MLIRType)
  | aggregate (fields : List LLVMValue)

mutual

/-- `Value::getType()`. -/
def typeOf : LLVMValue → MLIRType
  | .scalar ty _ => ty
  | .undef ty => ty
  | .aggregate fs => .llvmStruct (typesOf fs)

/-- Types of a list of values. -/
def typesOf : List LLVMValue → List MLIRType
  | [] => []
  | v :: vs => typeOf v :: typesOf vs

end

theorem typesOf_eq_map (fs : List LLVMValue) : typesOf fs = fs.map typeOf := by
  induction fs with
  | nil => rfl
  | cons v vs ih => simp [typesOf, ih]

/-- Denotation of `rewriter.create<LLVM::UndefOp>(loc, structType)`: a struct
whose fields are all undefined values of the declared field types. -/
def mkUndefStruct (body : List MLIRType) : LLVMValue :=
  .aggregate (body.map (fun t => .undef t))

/-- Denotation of `insert_val(structType, agg, v, i)`: replace field `i`.  On
a non-aggregate value the operation is out of this model's domain and is the
identity (the source only ever applies it to the undef struct it created). -/
def insert_val (agg : LLVMValue) (v : LLVMValue) (i : Nat) : LLVMValue :=
  match agg with
  | .aggregate fs => .aggregate (fs.set i v)
  | x => x

/-- Denotation of `extract_val(type, agg, i)`: project field `i`; extracting
from an undefined struct yields an undefined value of the field type. -/
def extract_val (agg : LLVMValue) (i : Nat) : Option LLVMValue :=
  match agg with
  | .aggregate fs => fs[i]?
  | .undef (.llvmStruct body) => (body[i]?).map (fun t => .undef t)
  | _ => none

/-- Diagnostics `packLLElements` can emit (`emitError(loc) << ...`).  A null
input value cannot be represented in this embedding, so the null-insert
diagnostic has no constructor. -/
inductive PackDiag where
  | sizeMismatch (expected actual : Nat)
  | invalidElementType (expected actual : MLIRType)

/-- The element loop of `packLLElements`: for each value, compare its type
with the declared field type (collecting a diagnostic on mismatch) and insert
it at its index.  Reading `elementTypes[i]` past the end of the struct body is
out of bounds in the source (only reachable when more values than fields are
supplied), modelled as `none`. -/
def packLoop (elementTypes : List MLIRType) :
    List LLVMValue → Nat → LLVMValue → List PackDiag →
    Option (List PackDiag × LLVMValue)
  | [], _, acc, diags => some (diags, acc)
  | v :: rest, i, acc, diags =>
    match elementTypes[i]? with
    | none => none
    | some et =>
      let diags :=
        diags ++ (if typeEq (typeOf v) et then [] else [.invalidElementType et (typeOf v)])
      packLoop elementTypes rest (i + 1) (insert_val acc v i) diags

/-- `TritonGPUToLLVMTypeConverter::packLLElements`: convert the target type;
if it is not an LLVM struct the single input value is returned unchanged
(`assert(resultVals.size() == 1)` - a violated assertion is `none`); otherwise
emit a size-mismatch diagnostic when the value count differs from the struct
field count, then build the aggregate from an undef struct by inserting every
value in order.  Note that the size-mismatch diagnostic does not stop the
construction. -/
def packLLElements (resultVals : List LLVMValue) (ty : MLIRType) :
    Option (List PackDiag × LLVMValue) :=
  match convertType ty with
  | some (.llvmStruct elementTypes) =>
    let sizeDiags :=
      if elementTypes.length ≠ resultVals.length then
        [PackDiag.sizeMismatch elementTypes.length resultVals.length]
      else []
    packLoop elementTypes resultVals 0 (mkUndefStruct elementTypes) sizeDiags
  | _ =>
    match resultVals with
    | [v] => some ([], v)
    | _ => none

/-- The extraction loop of `unpackLLElements`: `results[i] =
extract_val(types[i], llvmStruct, i)` for each declared field type. -/
def extractAll (v : LLVMValue) : List MLIRType → Nat → Option (List LLVMValue)
  | [], _ => some []
  | _ :: rest, i =>
    match extract_val v i with
    | none => none
    | some x =>
      match extractAll v rest (i + 1) with
      | none => none
      | some xs => some (x :: xs)

/-- `TritonGPUToLLVMTypeConverter::unpackLLElements`: a value of integer,
index, float, Triton-pointer or LLVM-pointer type is its own aggregate of
one; otherwise the value's type is cast to an LLVM struct (`none` when the
cast would fail) and every field is extracted in declared order. -/
def unpackLLElements (llvmStruct : LLVMValue) : Option (List LLVMValue) :=
  if (typeOf llvmStruct).isIntOrIndexOrFloat
      || (match typeOf llvmStruct with
          | .tritonPtr _ _ => true
          | .llvmPtr _ _ => true
          | _ => false) then
    some [llvmStruct]
  else
    match typeOf llvmStruct with
    | .llvmStruct body => extractAll llvmStruct body 0
    | _ => none

/-- Modelled from the spec: the `threadsPerWarp` computed by
`BlockedEncodingAttr::get(context, shape, sizePerThread, order, numWarps)`,
which is not part of the given sources.  The spec only constrains the
products of the per-dimension factors; the warp's 32 threads are assigned to
the first dimension. -/
def defaultThreadsPerWarp (rank : Nat) : List Nat :=
  match rank with
  | 0 => []
  | r + 1 => 32 :: List.replicate r 1

/-- Modelled from the spec: the `warpsPerCTA` computed by
`BlockedEncodingAttr::get(context, shape, sizePerThread, order, numWarps)`,
which is not part of the given sources.  The spec requires a warps-per-CTA
whose per-dimension product equals `numWarps`; all warps are assigned to the
first dimension. -/
def defaultWarpsPerCTA (rank numWarps : Nat) : List Nat :=
  match rank with
  | 0 => []
  | r + 1 => numWarps :: List.replicate r 1

/-- Modelled from the spec: `BlockedEncodingAttr::get(context, shape,
sizePerThread, order, numWarps)` (implemented outside the given sources)
builds a blocked encoding with the given size-per-thread and order, and
threads-per-warp / warps-per-CTA factors whose products are the warp size and
`numWarps` respectively. -/
def blockedEncodingGet (shape : List Int) (sizePerThread : List Nat)
    (order : List Nat) (numWarps : Nat) : Encoding :=
  .blocked sizePerThread (defaultThreadsPerWarp shape.length)
    (defaultWarpsPerCTA shape.length numWarps) order

/-- The `RankedTensorType` conversion registered by
`TritonGPUTypeConverter::TritonGPUTypeConverter` (TritonGPUConversion.cpp):
tensor types that already carry an encoding are returned unchanged; a tensor
type with no encoding is assigned a pessimistic blocked encoding with one
element per thread (`sizePerThread` all 1), identity order
(`order = [0, ..., rank-1]`) and the ambient `numWarps`.  All other types
convert to themselves (the identity fallback conversion). -/
def tritonGPUConvertType (numWarps : Nat) : MLIRType → MLIRType
  | .rankedTensor shape elem none =>
    .rankedTensor shape elem
      (some (blockedEncodingGet shape (List.replicate shape.length 1)
        (List.range shape.length) numWarps))
  | t => t

/-- Test for the DotOperand encoding variant
(`Attribute::isa<DotOperandEncodingAttr>`). -/
def isDotOperandEnc : Encoding → Bool
  | .dotOperand _ _ => true
  | _ => false

/-- The dynamic legality predicate registered for `triton::DotOp` by
`TritonGPUConversionTarget`: legal exactly when both matrix operands' tensor
types carry an encoding and both encodings are DotOperand encodings. -/
def dotOpIsLegal (aEncoding bEncoding : Option Encoding) : Bool :=
  match aEncoding, bEncoding with
  | some a, some b => isDotOperandEnc a && isDotOperandEnc b
  | _, _ => false

/-- Outcome of a result-type inference: a successfully inferred type, a
localized diagnostic at the operation's location with the enclosing
conversion returning failure (`emitOptionalError`), or termination of the
whole process (`llvm::report_fatal_error`). -/
inductive InferOutcome where
  | success (ty : MLIRType)
  | localFailure (msg : String)
  | fatal (msg : String)

/-- `TransOp::inferReturnTypes`: the result shape is the reversed operand
shape with the same element type; when the operand carries an encoding, the
dialect's `inferTransOpEncoding` (passed here as an oracle, its implementation
being outside the given sources) supplies the result encoding - and when it
fails the source calls `llvm::report_fatal_error` (whose message misnames
ReduceOp); the `return mlir::failure()` after it is unreachable. -/
def transOpInferReturnTypes (shape : List Int) (elt : MLIRType)
    (enc : Option Encoding) (inferTransOpEncoding : Encoding → Option Encoding) :
    InferOutcome :=
  let retShape := shape.reverse
  match enc with
  | none => .success (.rankedTensor retShape elt none)
  | some argEncoding =>
    match inferTransOpEncoding argEncoding with
    | none => .fatal "failed to infer layout for ReduceOp"
    | some retEncoding => .success (.rankedTensor retShape elt (some retEncoding))

/-- `ReduceOp::inferReturnTypes`: erase the reduced axis from the shape (the
element type becomes i32 for the index-returning reductions, per
`ReduceOp::withIndex`, passed here as a precomputed flag); an empty result
shape yields the scalar element type; otherwise, when the operand carries an
encoding, `inferReduceOpEncoding` (an oracle, implemented outside the given
sources) supplies the result encoding - and when it fails the source calls
`llvm::report_fatal_error`; the `return mlir::failure()` after it is
unreachable. -/
def reduceOpInferReturnTypes (shape : List Int) (elt : MLIRType)
    (enc : Option Encoding) (axis : Nat) (withIndex : Bool)
    (inferReduceOpEncoding : Encoding → Nat → Option Encoding) : InferOutcome :=
  let retEltTy : MLIRType := if withIndex then .int 32 else elt
  let retShape := shape.eraseIdx axis
  if retShape.isEmpty then
    .success retEltTy
  else
    match enc with
    | none => .success (.rankedTensor retShape retEltTy none)
    | some argEncoding =>
      match inferReduceOpEncoding argEncoding axis with
      | none => .fatal "failed to infer layout for ReduceOp"
      | some retEncoding => .success (.rankedTensor retShape retEltTy (some retEncoding))

/-- `ExpandDimsOp::inferReturnTypes`: insert extent 1 at the axis; when the
operand carries an encoding, `inferExpandDimsOpEncoding` (an oracle,
implemented outside the given sources) supplies the result encoding, and when
it fails the failure is reported with `emitOptionalError` at the operation's
location and the inference returns failure. -/
def expandDimsOpInferReturnTypes (shape : List Int) (elt : MLIRType)
    (enc : Option Encoding) (axis : Nat)
    (inferExpandDimsOpEncoding : Encoding → Nat → Option Encoding) : InferOutcome :=
  let retShape := insertAtIdx axis 1 shape
  match enc with
  | none => .success (.rankedTensor retShape elt none)
  | some argEncoding =>
    match inferExpandDimsOpEncoding argEncoding axis with
    | none => .localFailure "failed to infer layout for ExpandDimsOp"
    | some retEncoding => .success (.rankedTensor retShape elt (some retEncoding))

/-- The sequence of `List.set` updates performed by the packing loop:
`setSeq us vs k` sets positions `k, k+1, ...` of `us` to the values `vs`. -/
def setSeq : List LLVMValue → List LLVMValue → Nat → List LLVMValue
  | us, [], _ => us
  | us, v :: vr, k => setSeq (us.set k v) vr (k + 1)

theorem setSeq_eq_append :
    ∀ (vs us : List LLVMValue) (k : Nat), us.length = k + vs.length →
      setSeq us vs k = us.take k ++ vs := by
  intro vs
  induction vs with
  | nil =>
    intro us k h
    simp only [List.length_nil, Nat.add_zero] at h
    simp [setSeq, ← h]
  | cons v vr ih =>
    intro us k h
    have h' : us.length = k + (vr.length + 1) := by simpa using h
    have hk : k < us.length := by omega
    have hlen : (us.set k v).length = (k + 1) + vr.length := by
      rw [List.length_set]; omega
    have hstep : (us.set k v).take (k + 1) = us.take k ++ [v] := by
      rw [List.set_eq_take_cons_drop v hk]
      rw [List.take_append_eq_append_take]
      have h1 : (us.take k).length = k := by
        simp [List.length_take]; omega
      rw [List.take_of_length_le (by omega)]
      simp [h1]
    calc setSeq us (v :: vr) k = setSeq (us.set k v) vr (k + 1) := rfl
      _ = (us.set k v).take (k + 1) ++ vr := ih (us.set k v) (k + 1) hlen
      _ = (us.take k ++ [v]) ++ vr := by rw [hstep]
      _ = us.take k ++ v :: vr := by simp

theorem packLoop_typed :
    ∀ (vs : List LLVMValue) (pre : List MLIRType) (us : List LLVMValue)
      (diags : List PackDiag),
      packLoop (pre ++ vs.map typeOf) vs pre.length (.aggregate us) diags
        = some (diags, .aggregate (setSeq us vs pre.length)) := by
  intro vs
  induction vs with
  | nil => intro pre us diags; simp [packLoop, setSeq]
  | cons v vr ih =>
    intro pre us diags
    have hget : (pre ++ typeOf v :: vr.map typeOf)[pre.length]? = some (typeOf v) := by
      rw [List.getElem?_append_right (Nat.le_refl _)]
      simp
    simp only [List.map_cons]
    rw [packLoop, hget]
    simp only [typeEq_refl, eq_self_iff_true, ite_true, List.append_nil, insert_val]
    have hre : pre ++ typeOf v :: vr.map typeOf
        = (pre ++ [typeOf v]) ++ vr.map typeOf := by simp
    have hlen : pre.length + 1 = (pre ++ [typeOf v]).length := by simp
    rw [hre, hlen, ih (pre ++ [typeOf v]) (us.set pre.length v) diags]
    rw [← hlen]
    rfl

theorem extractAll_aggregate :
    ∀ (tys : List MLIRType) (fs : List LLVMValue) (k : Nat),
      tys.length + k = fs.length →
      extractAll (.aggregate fs) tys k = some (fs.drop k) := by
  intro tys
  induction tys with
  | nil =>
    intro fs k h
    simp only [List.length_nil, Nat.zero_add] at h
    rw [extractAll, List.drop_eq_nil_of_le (by omega)]
  | cons t tr ih =>
    intro fs k h
    have h' : tr.length + 1 + k = fs.length := by simpa using h
    have hk : k < fs.length := by omega
    rw [extractAll, extract_val, List.getElem?_eq_getElem hk,
      ih fs (k + 1) (by omega)]
    rw [List.drop_eq_getElem_cons hk]

theorem unpack_aggregate (fs : List LLVMValue) :
    unpackLLElements (.aggregate fs) = some fs := by
  rw [unpackLLElements]
  simp only [typeOf, MLIRType.isIntOrIndexOrFloat, Bool.false_or]
  rw [if_neg (by simp)]
  rw [typesOf_eq_map, extractAll_aggregate (fs.map typeOf) fs 0 (by simp)]
  rfl

theorem pack_typed (ets : List MLIRType) (vs : List LLVMValue) (ty : MLIRType)
    (hconv : convertType ty = some (.llvmStruct ets))
    (htys : vs.map typeOf = ets) :
    packLLElements vs ty = some ([], .aggregate vs) := by
  subst htys
  simp only [packLLElements, hconv]
  rw [if_neg (by simp)]
  have hp := packLoop_typed vs [] ((vs.map typeOf).map (fun t => LLVMValue.undef t)) []
  simp only [List.nil_append, List.length_nil] at hp
  rw [mkUndefStruct, hp]
  rw [setSeq_eq_append vs _ 0 (by simp)]
  simp

theorem packLoop_completes :
    ∀ (vs : List LLVMValue) (ets : List MLIRType) (i : Nat) (us : List LLVMValue)
      (diags : List PackDiag), i + vs.length ≤ ets.length →
      ∃ extra us2,
        packLoop ets vs i (.aggregate us) diags = some (diags ++ extra, .aggregate us2) := by
  intro vs
  induction vs with
  | nil =>
    intro ets i us diags _
    exact ⟨[], us, by simp [packLoop]⟩
  | cons v vr ih =>
    intro ets i us diags h
    have hi : i < ets.length := by simp at h; omega
    obtain ⟨extra, us2, hrec⟩ :=
      ih ets (i + 1) (us.set i v)
        (diags ++ (if typeEq (typeOf v) ets[i] then []
          else [.invalidElementType ets[i] (typeOf v)]))
        (by simp at h ⊢; omega)
    refine ⟨(if typeEq (typeOf v) ets[i] then []
      else [.invalidElementType ets[i] (typeOf v)]) ++ extra, us2, ?_⟩
    simp only [packLoop, List.getElem?_eq_getElem hi, insert_val]
    rw [hrec, List.append_assoc]

theorem isDotOperandEnc_iff (e : Encoding) :
    isDotOperandEnc e = true ↔ ∃ i p, e = .dotOperand i p := by
  cases e <;> simp [isDotOperandEnc]

theorem convertTensor_shared_eq (shape : List Int) (elem eConv : MLIRType)
    (h : convertType elem = some eConv) :
    convertTritonTensorType shape elem (some .shared)
      = some (.llvmStruct
          (.llvmPtr eConv 3 :: List.replicate (2 * shape.length) (.int 32))) := by
  simp [convertTritonTensorType, convertType, h, elementTypeForStructOfConverted]

/-- C1: for every tensor type whose conversion yields an aggregate and every
well-typed value sequence whose length equals the aggregate's field count,
unpacking the packed aggregate returns the original sequence (and the pack
itself succeeds with no diagnostics); and for every well-typed aggregate
value, packing its unpacked fields at its own type reproduces the value - the
pack/unpack round-trip is the identity on well-typed, non-error inputs. -/
theorem pack_unpack_roundtrip :
    (∀ (ty : MLIRType) (ets : List MLIRType) (vs : List LLVMValue),
        convertType ty = some (.llvmStruct ets) →
        vs.map typeOf = ets →
        packLLElements vs ty = some ([], .aggregate vs) ∧
          unpackLLElements (.aggregate vs) = some vs) ∧
    (∀ fs : List LLVMValue,
        unpackLLElements (.aggregate fs) = some fs ∧
          packLLElements fs (typeOf (.aggregate fs)) = some ([], .aggregate fs)) := by
  constructor
  · intro ty ets vs hconv htys
    exact ⟨pack_typed ets vs ty hconv htys, unpack_aggregate vs⟩
  · intro fs
    refine ⟨unpack_aggregate fs, pack_typed (fs.map typeOf) fs _ ?_ rfl⟩
    simp [typeOf, typesOf_eq_map, convertType]

/-- Witness for C1 at a shared-layout tensor type with three struct fields. -/
theorem pack_unpack_roundtrip_witness :
    packLLElements
        [LLVMValue.scalar (.llvmPtr .f32 3) 0, .scalar (.int 32) 1, .scalar (.int 32) 2]
        (.rankedTensor [1] .f32 (some .shared))
      = some ([], .aggregate
          [.scalar (.llvmPtr .f32 3) 0, .scalar (.int 32) 1, .scalar (.int 32) 2]) ∧
    unpackLLElements
        (.aggregate [.scalar (.llvmPtr .f32 3) 0, .scalar (.int 32) 1, .scalar (.int 32) 2])
      = some [.scalar (.llvmPtr .f32 3) 0, .scalar (.int 32) 1, .scalar (.int 32) 2] :=
  pack_unpack_roundtrip.1 (.rankedTensor [1] .f32 (some .shared))
    [.llvmPtr .f32 3, .int 32, .int 32]
    [.scalar (.llvmPtr .f32 3) 0, .scalar (.int 32) 1, .scalar (.int 32) 2] rfl rfl

/-- Counterexample to C2 as stated: under a DotOperand layout with an
Ampere-class MMA parent, an 8-bit integer element type resolves to a widened
32-bit integer, not to the 4-wide vector the claim requires. -/
theorem ampere_i8_not_vec4_cex :
    getElementTypeForStruct (.int 8) (some (.dotOperand 0 (.mma .ampere)))
        = some (.int 32) ∧
    some (MLIRType.int 32) ≠ some (MLIRType.vec 4 (.int 8)) :=
  ⟨rfl, fun h => nomatch h⟩

/-- C2 as amended: under an Ampere-parent DotOperand layout, an 8-bit integer
element widens to a 32-bit integer (not a vector); a 16-bit element becomes a
2-wide vector when its converted form is non-integer (f16), while the 16-bit
integer and bfloat16 (stored as i16) widen to 32-bit; a 32-bit element maps
to a 1-wide vector of the scalar type. -/
theorem ampere_element_resolution_concrete :
    getElementTypeForStruct (.int 8) (some (.dotOperand 0 (.mma .ampere)))
        = some (.int 32) ∧
    getElementTypeForStruct (.int 16) (some (.dotOperand 0 (.mma .ampere)))
        = some (.int 32) ∧
    getElementTypeForStruct .bf16 (some (.dotOperand 0 (.mma .ampere)))
        = some (.int 32) ∧
    getElementTypeForStruct .f16 (some (.dotOperand 0 (.mma .ampere)))
        = some (.vec 2 .f16) ∧
    getElementTypeForStruct (.int 32) (some (.dotOperand 0 (.mma .ampere)))
        = some (.vec 1 (.int 32)) ∧
    getElementTypeForStruct .f32 (some (.dotOperand 0 (.mma .ampere)))
        = some (.vec 1 .f32) :=
  ⟨rfl, rfl, rfl, rfl, rfl, rfl⟩

/-- Counterexample to C3 as stated: bfloat16 is a non-integer element type of
bit width 16, yet under an Ampere-parent DotOperand layout it resolves to a
widened 32-bit integer (it is first reinterpreted as i16), not to a 2-wide
vector of itself. -/
theorem ampere_bf16_not_vec2_cex :
    getElementTypeForStruct .bf16 (some (.dotOperand 0 (.mma .ampere)))
        = some (.int 32) ∧
    some (MLIRType.int 32) ≠ some (MLIRType.vec 2 .bf16) :=
  ⟨rfl, fun h => nomatch h⟩

/-- C3 as amended: under an Ampere-parent DotOperand layout, for every
element type that the scalar conversion maps to itself (so excluding the
8-bit float formats and bfloat16, which are first reinterpreted as integers
and then widened), every integer element type of width below 32 widens to a
32-bit integer, and every non-integer element type of width 32, 16 or 8 maps
to a fixed-width vector of that element type of width 1, 2 or 4
respectively. -/
theorem ampere_element_resolution_table (opIdx : Nat) (elem : MLIRType)
    (hself : convertType elem = some elem) :
    (elem.isIntegerType = true → elem.getIntOrFloatBitWidth < 32 →
      getElementTypeForStruct elem (some (.dotOperand opIdx (.mma .ampere)))
        = some (.int 32)) ∧
    (elem.isIntegerType = false → elem.getIntOrFloatBitWidth = 32 →
      getElementTypeForStruct elem (some (.dotOperand opIdx (.mma .ampere)))
        = some (.vec 1 elem)) ∧
    (elem.isIntegerType = false → elem.getIntOrFloatBitWidth = 16 →
      getElementTypeForStruct elem (some (.dotOperand opIdx (.mma .ampere)))
        = some (.vec 2 elem)) ∧
    (elem.isIntegerType = false → elem.getIntOrFloatBitWidth = 8 →
      getElementTypeForStruct elem (some (.dotOperand opIdx (.mma .ampere)))
        = some (.vec 4 elem)) := by
  refine ⟨fun hint hw => ?_, fun hint hw => ?_, fun hint hw => ?_, fun hint hw => ?_⟩ <;>
    simp [getElementTypeForStruct, hself, elementTypeForStructOfConverted, hint, hw]

/-- Witness for C3 (amended) at the 16-bit float element type. -/
theorem ampere_element_resolution_table_witness :
    getElementTypeForStruct .f16 (some (.dotOperand 1 (.mma .ampere)))
      = some (.vec 2 .f16) :=
  (ampere_element_resolution_table 1 .f16 rfl).2.2.1 rfl rfl

/-- Counterexample to C4 as stated: packing one value into a three-field
aggregate type emits the field-count-mismatch diagnostic but still constructs
and returns the aggregate (the first value inserted, the remaining fields
undefined). -/
theorem pack_mismatch_constructs_cex :
    packLLElements [LLVMValue.scalar (.llvmPtr .f32 3) 0]
        (.rankedTensor [1] .f32 (some .shared))
      = some ([PackDiag.sizeMismatch 3 1],
          .aggregate [.scalar (.llvmPtr .f32 3) 0, .undef (.int 32), .undef (.int 32)]) :=
  rfl

/-- C4 as amended: packing a sequence whose length differs from the field
count of the converted aggregate type emits a field-count-mismatch diagnostic
naming the expected and actual counts, but still constructs the aggregate
from the provided values (stated for sequences no longer than the field
count; with more values than fields the loop reads past the struct body). -/
theorem pack_mismatch_diagnoses_and_constructs (ty : MLIRType)
    (ets : List MLIRType) (vs : List LLVMValue)
    (hconv : convertType ty = some (.llvmStruct ets))
    (hle : vs.length ≤ ets.length) (hne : vs.length ≠ ets.length) :
    ∃ diags fs, packLLElements vs ty = some (diags, .aggregate fs) ∧
      PackDiag.sizeMismatch ets.length vs.length ∈ diags := by
  simp only [packLLElements, hconv]
  rw [if_pos (by omega)]
  obtain ⟨extra, us2, h⟩ :=
    packLoop_completes vs ets 0 (ets.map (fun t => .undef t))
      [PackDiag.sizeMismatch ets.length vs.length] (by omega)
  rw [mkUndefStruct, h]
  exact ⟨_, us2, rfl, by simp⟩

/-- Witness for C4 (amended): one value against a three-field aggregate. -/
theorem pack_mismatch_diagnoses_and_constructs_witness :
    ∃ diags fs,
      packLLElements [LLVMValue.scalar (.llvmPtr .f32 3) 0]
          (.rankedTensor [1] .f32 (some .shared))
        = some (diags, .aggregate fs) ∧
      PackDiag.sizeMismatch 3 1 ∈ diags :=
  pack_mismatch_diagnoses_and_constructs (.rankedTensor [1] .f32 (some .shared))
    [.llvmPtr .f32 3, .int 32, .int 32] [.scalar (.llvmPtr .f32 3) 0]
    rfl (by decide) (by decide)

/-- C5: a ranked tensor type with no layout encoding is assigned a Blocked
encoding with size-per-thread 1 in every dimension, identity dimension order
and a warps-per-CTA product equal to the configured number of warps; a tensor
type that already carries an encoding is returned unchanged. -/
theorem default_layout_assignment (numWarps : Nat) (shape : List Int)
    (elem : MLIRType) (e : Encoding) (hrank : 0 < shape.length) :
    tritonGPUConvertType numWarps (.rankedTensor shape elem none)
      = .rankedTensor shape elem
          (some (.blocked (List.replicate shape.length 1)
            (defaultThreadsPerWarp shape.length)
            (defaultWarpsPerCTA shape.length numWarps)
            (List.range shape.length))) ∧
    (defaultWarpsPerCTA shape.length numWarps).prod = numWarps ∧
    tritonGPUConvertType numWarps (.rankedTensor shape elem (some e))
      = .rankedTensor shape elem (some e) := by
  cases shape with
  | nil => simp at hrank
  | cons d rest =>
    refine ⟨rfl, ?_, rfl⟩
    simp [defaultWarpsPerCTA, List.prod_replicate]

/-- Witness for C5 with four warps and a rank-2 tensor. -/
theorem default_layout_assignment_witness :
    tritonGPUConvertType 4 (.rankedTensor [16, 16] .f32 none)
      = .rankedTensor [16, 16] .f32
          (some (.blocked (List.replicate 2 1) (defaultThreadsPerWarp 2)
            (defaultWarpsPerCTA 2 4) (List.range 2))) ∧
    (defaultWarpsPerCTA 2 4).prod = 4 ∧
    tritonGPUConvertType 4 (.rankedTensor [16, 16] .f32 (some .shared))
      = .rankedTensor [16, 16] .f32 (some .shared) :=
  default_layout_assignment 4 [16, 16] .f32 .shared (by decide)

/-- C6: the dot-operation legality predicate holds exactly when both matrix
operands carry DotOperand encodings; in particular any operand with a Blocked
encoding, or with no encoding at all, makes the operation illegal. -/
theorem dot_legality :
    (∀ aEncoding bEncoding : Option Encoding,
        dotOpIsLegal aEncoding bEncoding = true ↔
          (∃ i p, aEncoding = some (.dotOperand i p)) ∧
            (∃ j q, bEncoding = some (.dotOperand j q))) ∧
    (∀ (spt tpw wpc ord : List Nat) (bEncoding : Option Encoding),
        dotOpIsLegal (some (.blocked spt tpw wpc ord)) bEncoding = false) ∧
    (∀ (spt tpw wpc ord : List Nat) (aEncoding : Option Encoding),
        dotOpIsLegal aEncoding (some (.blocked spt tpw wpc ord)) = false) ∧
    (∀ bEncoding : Option Encoding, dotOpIsLegal none bEncoding = false) ∧
    (∀ aEncoding : Option Encoding, dotOpIsLegal aEncoding none = false) := by
  refine ⟨?_, ?_, ?_, ?_, ?_⟩
  · intro aEncoding bEncoding
    cases aEncoding with
    | none => simp [dotOpIsLegal]
    | some a =>
      cases bEncoding with
      | none => simp [dotOpIsLegal]
      | some b => simp [dotOpIsLegal, isDotOperandEnc_iff]
  · intro spt tpw wpc ord bEncoding
    cases bEncoding <;> simp [dotOpIsLegal, isDotOperandEnc]
  · intro spt tpw wpc ord aEncoding
    cases aEncoding with
    | none => simp [dotOpIsLegal]
    | some a => cases a <;> simp [dotOpIsLegal, isDotOperandEnc]
  · intro bEncoding
    simp [dotOpIsLegal]
  · intro aEncoding
    cases aEncoding <;> simp [dotOpIsLegal]

/-- C7: a tensor type with a Shared (memory-resident) layout converts,
whatever its elements-per-thread would be, to the struct whose fields are an
address-space-qualified pointer to the resolved element type followed by
exactly `2 * rank` 32-bit integers (the `rank` offsets and `rank` strides). -/
theorem shared_tensor_lowering (shape : List Int) (elem eConv : MLIRType)
    (h : convertType elem = some eConv) :
    convertTritonTensorType shape elem (some .shared)
      = some (.llvmStruct
          (.llvmPtr eConv 3 :: List.replicate (2 * shape.length) (.int 32))) :=
  convertTensor_shared_eq shape elem eConv h

/-- Witness for C7 at a rank-2 f16 tensor. -/
theorem shared_tensor_lowering_witness :
    convertTritonTensorType [4, 4] .f16 (some .shared)
      = some (.llvmStruct
          (.llvmPtr .f16 3 :: List.replicate 4 (.int 32))) :=
  shared_tensor_lowering [4, 4] .f16 .f16 rfl

/-- C8: under a DotOperand layout whose parent is a Volta-class MMA layout,
element-type resolution yields a 2-wide vector of the converted element type
for every element type, regardless of bit width. -/
theorem volta_always_vec2 (opIdx : Nat) (elem eConv : MLIRType)
    (h : convertType elem = some eConv) :
    getElementTypeForStruct elem (some (.dotOperand opIdx (.mma .volta)))
      = some (.vec 2 eConv) := by
  simp [getElementTypeForStruct, h, elementTypeForStructOfConverted]

/-- Witness for C8 at a 64-bit element type (a width outside the Ampere
table, showing the Volta rule ignores bit width). -/
theorem volta_always_vec2_witness :
    getElementTypeForStruct .f64 (some (.dotOperand 0 (.mma .volta)))
      = some (.vec 2 .f64) :=
  volta_always_vec2 0 .f64 .f64 rfl

/-- C9: evaluation of the three inference paths at an encoding the layout
oracle rejects: TransOp and ReduceOp reach `llvm::report_fatal_error`
(process termination, with TransOp's message even naming ReduceOp), while
only ExpandDimsOp reports the localized diagnostic and returns failure as
the claim describes. -/
theorem infer_failure_modes :
    transOpInferReturnTypes [2, 3] (.int 32)
        (some (.blocked [1, 1] [1, 32] [4, 1] [0, 1])) (fun _ => none)
      = .fatal "failed to infer layout for ReduceOp" ∧
    reduceOpInferReturnTypes [2, 3] (.int 32)
        (some (.blocked [1, 1] [1, 32] [4, 1] [0, 1])) 0 false (fun _ _ => none)
      = .fatal "failed to infer layout for ReduceOp" ∧
    expandDimsOpInferReturnTypes [2] (.int 32)
        (some (.blocked [1] [32] [4] [0])) 0 (fun _ _ => none)
      = .localFailure "failed to infer layout for ExpandDimsOp" :=
  ⟨rfl, rfl, rfl⟩

/-- C10: for every Shared-layout tensor type the base-pointer field of the
produced struct is qualified with address space 3, a hard-coded constant
independent of element type, rank or any configuration input. -/
theorem shared_pointer_addrspace (shape : List Int) (elem eConv : MLIRType)
    (h : convertType elem = some eConv) :
    ∃ rest, convertTritonTensorType shape elem (some .shared)
      = some (.llvmStruct (.llvmPtr eConv 3 :: rest)) :=
  ⟨List.replicate (2 * shape.length) (.int 32),
    convertTensor_shared_eq shape elem eConv h⟩

/-- Witness for C10 at a rank-1 bfloat16 tensor (whose element resolves to
i16): the pointer is still in address space 3. -/
theorem shared_pointer_addrspace_witness :
    ∃ rest, convertTritonTensorType [2] .bf16 (some .shared)
      = some (.llvmStruct (.llvmPtr (.int 16) 3 :: rest)) :=
  shared_pointer_addrspace [2] .bf16 (.int 16) rfl
